import Mathlib

/-!
Verification development for the opentelemetry-application-insights span
exporter.  The definitions below are a shallow embedding of `src/lib.rs`
(span/event → telemetry record mapping, envelope assembly, exporter
configuration) together with spec-modelled stand-ins for the crate modules
that are not part of the sources at hand (`convert.rs`, `models.rs`,
`tags.rs`, `uploader.rs`).  Attribute values are modelled as their string
renderings, timestamps as natural numbers, and the sampling rate as a
rational number.
-/

namespace AppInsights

/-- OpenTelemetry span kind (`opentelemetry::trace::SpanKind`). -/
inductive SpanKind where
  | server
  | consumer
  | client
  | producer
  | internal
deriving DecidableEq, Repr

/-- OpenTelemetry span status (`opentelemetry::trace::StatusCode`):
`Unset = 0`, `Ok = 1`, `Error = 2`. -/
inductive StatusCode where
  | unset
  | ok
  | error
deriving DecidableEq, Repr

/-- Numeric value of a status code, as produced by `span.status_code as i32`. -/
def statusCodeToInt : StatusCode → Int
  | .unset => 0
  | .ok => 1
  | .error => 2

/-- An attribute list: ordered key/value pairs with string-rendered values. -/
abbrev Attrs := List (String × String)

/-- Lookup of an attribute by key, modelling `EvictedHashMap::get` /
`HashMap::get` (first entry with the key). -/
def get_kv (attrs : Attrs) (k : String) : Option String :=
  (attrs.find? (fun p => p.1 = k)).map (fun p => p.2)

/-- A span event (`opentelemetry::trace::Event`): name, timestamp, attributes. -/
structure Event where
  name : String
  timestamp : Nat
  attributes : Attrs
deriving DecidableEq, Repr

/-- A completed span (`SpanData`), restricted to the fields the exporter reads. -/
structure SpanData where
  spanId : Nat
  spanKind : SpanKind
  name : String
  startTime : Nat
  endTime : Nat
  statusCode : StatusCode
  attributes : Attrs
  resource : Attrs
  events : List Event
deriving DecidableEq, Repr

/-- Modelled from the spec: `models.rs` (with `LimitedLenString1024`) is not
under the sources at hand.  Every string routed into a fixed-width schema slot
is silently truncated to 1024 characters (spec §3, invariants). -/
def lim (s : String) : String :=
  String.mk (s.data.take 1024)

/-- Modelled from the spec: `convert.rs` is not under the sources at hand.
`span_id_to_string` renders the span id; the exact formatting is immaterial
here, decimal rendering stands in for it. -/
def span_id_to_string (id : Nat) : String :=
  toString id

/-- Modelled from the spec: `convert.rs` is not under the sources at hand.
`duration_to_string` formats an elapsed duration as a fixed duration string;
decimal rendering of the elapsed ticks stands in for it. -/
def duration_to_string (d : Nat) : String :=
  toString d

/-- Modelled from the spec: `convert.rs` is not under the sources at hand.
`time_to_string` renders a timestamp as ISO-8601; an injective decimal
rendering stands in for it. -/
def time_to_string (t : Nat) : String :=
  toString t

/-- Merge of span/event attributes with resource attributes: resource entries
act as defaults, attribute entries take precedence on key collision
(spec §4.3). -/
def merge_attrs (attrs resource : Attrs) : Attrs :=
  resource.filter (fun r => !(attrs.any (fun a => a.1 = r.1))) ++ attrs

/-- Modelled from the spec: `convert.rs` is not under the sources at hand.
`attrs_to_properties` merges attributes with resource attributes (attributes
win on collision), truncates every key and value to the 1024-character cap,
and returns `none` rather than an empty mapping (spec §4.3). -/
def attrs_to_properties (attrs resource : Attrs) : Option Attrs :=
  let props := (merge_attrs attrs resource).map (fun p => (lim p.1, lim p.2))
  if props.isEmpty then none else some props

/-- Semantic-convention attribute keys used by the mapping (lib.rs). -/
def HTTP_METHOD : String := "http.method"

def HTTP_ROUTE : String := "http.route"

def HTTP_STATUS_CODE : String := "http.status_code"

def HTTP_URL : String := "http.url"

def HTTP_TARGET : String := "http.target"

def HTTP_SCHEME : String := "http.scheme"

def HTTP_HOST : String := "http.host"

def HTTP_CLIENT_IP : String := "http.client_ip"

def NET_PEER_IP : String := "net.peer.ip"

def NET_PEER_NAME : String := "net.peer.name"

def NET_PEER_PORT : String := "net.peer.port"

def DB_STATEMENT : String := "db.statement"

def DB_NAME : String := "db.name"

def DB_SYSTEM : String := "db.system"

def MESSAGING_SYSTEM : String := "messaging.system"

def RPC_SYSTEM : String := "rpc.system"

def EXCEPTION_TYPE : String := "exception.type"

def EXCEPTION_MESSAGE : String := "exception.message"

def EXCEPTION_STACKTRACE : String := "exception.stacktrace"

/-- Application Insights `RequestData` record (fields as used in lib.rs). -/
structure RequestData where
  ver : Nat
  id : String
  name : Option String
  duration : String
  response_code : String
  success : Bool
  source : Option String
  url : Option String
  properties : Option Attrs
deriving DecidableEq, Repr

/-- Application Insights `RemoteDependencyData` record (fields as used in
lib.rs). -/
structure RemoteDependencyData where
  ver : Nat
  id : Option String
  name : String
  duration : String
  result_code : Option String
  success : Option Bool
  data : Option String
  target : Option String
  type_ : Option String
  properties : Option Attrs
deriving DecidableEq, Repr

/-- `impl From<&SpanData> for RequestData` (lib.rs, lines 558-618). -/
def request_data_from_span (span : SpanData) : RequestData :=
  { ver := 2
    id := lim (span_id_to_string span.spanId)
    name :=
      match get_kv span.attributes HTTP_METHOD with
      | some method =>
        some (match get_kv span.attributes HTTP_ROUTE with
              | some route => lim (method ++ " " ++ route)
              | none => lim method)
      | none => (some (lim span.name)).filter (fun x => !x.isEmpty)
    duration := duration_to_string (span.endTime - span.startTime)
    response_code :=
      match get_kv span.attributes HTTP_STATUS_CODE with
      | some status => lim status
      | none => lim (toString (statusCodeToInt span.statusCode))
    success := span.statusCode ≠ StatusCode.error
    source :=
      match get_kv span.attributes HTTP_CLIENT_IP with
      | some clientIp => some (lim clientIp)
      | none =>
        match get_kv span.attributes NET_PEER_IP with
        | some peerIp => some (lim peerIp)
        | none => none
    url :=
      match get_kv span.attributes HTTP_URL with
      | some url => some (lim url)
      | none =>
        match get_kv span.attributes HTTP_TARGET with
        | some target0 =>
          let target := if target0.startsWith "/" then target0 else "/" ++ target0
          match get_kv span.attributes HTTP_SCHEME, get_kv span.attributes HTTP_HOST with
          | some scheme, some host => some (lim (scheme ++ "://" ++ host ++ target))
          | _, _ => some (lim target)
        | none => none
    properties := attrs_to_properties span.attributes span.resource }

/-- `impl From<&SpanData> for RemoteDependencyData` (lib.rs, lines 620-690). -/
def remote_dependency_data_from_span (span : SpanData) : RemoteDependencyData :=
  let properties := attrs_to_properties span.attributes span.resource
  { ver := 2
    id := some (lim (span_id_to_string span.spanId))
    name := lim span.name
    duration := duration_to_string (span.endTime - span.startTime)
    result_code :=
      match get_kv span.attributes HTTP_STATUS_CODE with
      | some status => some (lim status)
      | none => some (lim (toString (statusCodeToInt span.statusCode)))
    success :=
      match span.statusCode with
      | .unset => none
      | .ok => some true
      | .error => some false
    data :=
      match get_kv span.attributes HTTP_URL with
      | some url => some (lim url)
      | none =>
        match get_kv span.attributes DB_STATEMENT with
        | some statement => some (lim statement)
        | none => none
    target :=
      match get_kv span.attributes HTTP_HOST with
      | some host => some (lim host)
      | none =>
        match get_kv span.attributes NET_PEER_NAME with
        | some peerName =>
          match get_kv span.attributes NET_PEER_PORT with
          | some peerPort => some (lim (peerName ++ ":" ++ peerPort))
          | none => some (lim peerName)
        | none =>
          match get_kv span.attributes NET_PEER_IP with
          | some peerIp =>
            match get_kv span.attributes NET_PEER_PORT with
            | some peerPort => some (lim (peerIp ++ ":" ++ peerPort))
            | none => some (lim peerIp)
          | none =>
            match get_kv span.attributes DB_NAME with
            | some dbName => some (lim dbName)
            | none => none
    type_ :=
      if span.spanKind = SpanKind.internal then some (lim "InProc")
      else
        match get_kv span.attributes DB_SYSTEM with
        | some dbSystem => some (lim dbSystem)
        | none =>
          match get_kv span.attributes MESSAGING_SYSTEM with
          | some messagingSystem => some (lim messagingSystem)
          | none =>
            match get_kv span.attributes RPC_SYSTEM with
            | some rpcSystem => some (lim rpcSystem)
            | none =>
              match properties with
              | some props =>
                if props.any (fun p => p.1.startsWith "http.") then some (lim "HTTP")
                else if props.any (fun p => p.1.startsWith "db.") then some (lim "DB")
                else none
              | none => none
    properties := properties }

/-- Application Insights `ExceptionDetails` (one entry of
`ExceptionData.exceptions`). -/
structure ExceptionDetails where
  type_name : String
  message : String
  stack : Option String
deriving DecidableEq, Repr

/-- Application Insights `ExceptionData` record. -/
structure ExceptionData where
  ver : Nat
  exceptions : List ExceptionDetails
  properties : Option Attrs
deriving DecidableEq, Repr

/-- Application Insights `MessageData` record. -/
structure MessageData where
  ver : Nat
  message : String
  properties : Option Attrs
deriving DecidableEq, Repr

/-- Key-deduplication of an attribute list, keeping the last occurrence of
each key (the order-normalised image of collecting the pairs into a
`HashMap`/`BTreeMap`, as `From<&Event>` in lib.rs does). -/
def dedup_keys : Attrs → Attrs
  | [] => []
  | p :: rest =>
    if rest.any (fun q => q.1 = p.1) then dedup_keys rest
    else p :: dedup_keys rest

/-- The `Properties` map of `models.rs`: entries truncated to the
1024-character cap, and an empty map is replaced by `none`
(`Some(..).filter(|x| !x.is_empty())` in lib.rs). -/
def mk_properties (l : Attrs) : Option Attrs :=
  let props := l.map (fun p => (lim p.1, lim p.2))
  if props.isEmpty then none else some props

/-- `impl From<&Event> for ExceptionData` (lib.rs, lines 692-724): the three
`exception.*` keys are removed from the attribute map into the dedicated
fields, with placeholder defaults; remaining attributes become the
properties bag. -/
def exception_data_from_event (event : Event) : ExceptionData :=
  let attrs := dedup_keys event.attributes
  { ver := 2
    exceptions :=
      [{ type_name :=
           match get_kv attrs EXCEPTION_TYPE with
           | some v => lim v
           | none => "<no type>"
         message :=
           match get_kv attrs EXCEPTION_MESSAGE with
           | some v => lim v
           | none => "<no message>"
         stack := (get_kv attrs EXCEPTION_STACKTRACE).map lim }]
    properties :=
      mk_properties
        (attrs.filter (fun p =>
          p.1 ≠ EXCEPTION_TYPE ∧ p.1 ≠ EXCEPTION_MESSAGE ∧ p.1 ≠ EXCEPTION_STACKTRACE)) }

/-- `impl From<&Event> for MessageData` (lib.rs, lines 726-744). -/
def message_data_from_event (event : Event) : MessageData :=
  { ver := 2
    message := if event.name.isEmpty then "<no message>" else lim event.name
    properties := mk_properties (dedup_keys event.attributes) }

/-- The discriminated `Data` payload of an envelope (`models.rs`, as used by
lib.rs). -/
inductive Data where
  | request : RequestData → Data
  | remoteDependency : RemoteDependencyData → Data
  | exception : ExceptionData → Data
  | message : MessageData → Data
deriving DecidableEq, Repr

/-- Modelled from the spec: `tags.rs` is not under the sources at hand.
`get_tags_for_span` resolves the fixed catalogue of context tags from
span/resource attributes (spec §4.2 and the attribute table in lib.rs):
application version, authenticated user id, cloud role (namespace+name),
cloud role instance, SDK name+version, operation name (HTTP method+route,
Server-kind spans only), and pass-through of `ai.*`-prefixed attributes. -/
def get_tags_for_span (span : SpanData) : Attrs :=
  let lookup := fun k => match get_kv span.attributes k with
    | some v => some v
    | none => get_kv span.resource k
  let entry := fun tag k => match lookup k with
    | some v => [(tag, lim v)]
    | none => []
  entry "ai.application.ver" "service.version" ++
  entry "ai.user.authUserId" "enduser.id" ++
  (match lookup "service.name" with
   | some name =>
     match lookup "service.namespace" with
     | some ns => [("ai.cloud.role", lim (ns ++ "." ++ name))]
     | none => [("ai.cloud.role", lim name)]
   | none => []) ++
  entry "ai.cloud.roleInstance" "service.instance.id" ++
  (match lookup "telemetry.sdk.name", lookup "telemetry.sdk.version" with
   | some sdkName, some sdkVersion =>
     [("ai.internal.sdkVersion", lim (sdkName ++ ":" ++ sdkVersion))]
   | _, _ => []) ++
  (match span.spanKind, get_kv span.attributes HTTP_METHOD with
   | SpanKind.server, some method =>
     match get_kv span.attributes HTTP_ROUTE with
     | some route => [("ai.operation.name", lim (method ++ " " ++ route))]
     | none => [("ai.operation.name", lim method)]
   | _, _ => []) ++
  (span.attributes.filter (fun p => p.1.startsWith "ai.")).map
    (fun p => (lim p.1, lim p.2))

/-- Modelled from the spec: `tags.rs` is not under the sources at hand.
Tags for an event reuse the parent span's resolution — events never carry
independent context tags (spec §4.2). -/
def get_tags_for_event (span : SpanData) : Attrs :=
  get_tags_for_span span

/-- The outer `Envelope` (`models.rs`, fields as set by lib.rs). -/
structure Envelope where
  name : String
  time : String
  sample_rate : Option ℚ
  i_key : Option String
  tags : Option Attrs
  data : Option Data
deriving DecidableEq, Repr

/-- Exporter configuration (`Exporter` struct of lib.rs, minus the transport
client, which is dispatch-only state). -/
structure Exporter where
  endpoint : String
  instrumentation_key : String
  sample_rate : ℚ
deriving DecidableEq, Repr

/-- `Exporter::new` (lib.rs, lines 416-425): default endpoint and a sampling
rate of 100 percent. -/
def Exporter.new (instrumentation_key : String) : Exporter :=
  { endpoint := "https://dc.services.visualstudio.com/v2/track"
    instrumentation_key := instrumentation_key
    sample_rate := 100 }

/-- `Exporter::with_sample_rate` (lib.rs, lines 443-447): Application
Insights expects the sample rate as a percentage. -/
def Exporter.with_sample_rate (ex : Exporter) (rate : ℚ) : Exporter :=
  { ex with sample_rate := rate * 100 }

/-- The span-routing match of `Exporter::create_envelopes` (lib.rs, lines
452-471): Server/Consumer spans become Request envelopes, the rest become
RemoteDependency envelopes. -/
def map_span (span : SpanData) : Data × Attrs × String :=
  match span.spanKind with
  | .server | .consumer =>
    (Data.request (request_data_from_span span), get_tags_for_span span,
     "Microsoft.ApplicationInsights.Request")
  | .client | .producer | .internal =>
    (Data.remoteDependency (remote_dependency_data_from_span span), get_tags_for_span span,
     "Microsoft.ApplicationInsights.RemoteDependency")

/-- The event-routing match of `Exporter::create_envelopes` (lib.rs, lines
482-491): an event named exactly `"exception"` becomes an Exception envelope,
any other event a Message envelope. -/
def map_event (event : Event) : Data × String :=
  if event.name = "exception" then
    (Data.exception (exception_data_from_event event),
     "Microsoft.ApplicationInsights.Exception")
  else
    (Data.message (message_data_from_event event),
     "Microsoft.ApplicationInsights.Message")

/-- `Exporter::create_envelopes` (lib.rs, lines 449-503): one primary
envelope per span (timestamped at the span's start time) followed by one
envelope per event (timestamped at the event's own time), all carrying the
configured sampling rate and instrumentation key. -/
def create_envelopes (ex : Exporter) (span : SpanData) : List Envelope :=
  let p := map_span span
  { name := p.2.2
    time := time_to_string span.startTime
    sample_rate := some ex.sample_rate
    i_key := some ex.instrumentation_key
    tags := some p.2.1
    data := some p.1 } ::
  span.events.map (fun event =>
    let q := map_event event
    { name := q.2
      time := time_to_string event.timestamp
      sample_rate := some ex.sample_rate
      i_key := some ex.instrumentation_key
      tags := some (get_tags_for_event span)
      data := some q.1 })

/-- `PipelineBuilder` configuration state (lib.rs, lines 196-203; the
transport client and SDK trace config are out of scope here). -/
structure PipelineBuilder where
  endpoint : Option String
  instrumentation_key : String
  sample_rate : Option ℚ
deriving DecidableEq, Repr

/-- `new_pipeline` (lib.rs, lines 185-193). -/
def new_pipeline (instrumentation_key : String) : PipelineBuilder :=
  { endpoint := none, instrumentation_key := instrumentation_key, sample_rate := none }

/-- `PipelineBuilder::with_sample_rate` (lib.rs, lines 260-264): stores the
given rate multiplied by 100, with no validation or clamping. -/
def PipelineBuilder.with_sample_rate (b : PipelineBuilder) (rate : ℚ) : PipelineBuilder :=
  { b with sample_rate := some (rate * 100) }

/-- `PipelineBuilder::init_exporter` (lib.rs, lines 338-348). -/
def init_exporter (b : PipelineBuilder) : Exporter :=
  let ex := Exporter.new b.instrumentation_key
  let ex := match b.endpoint with
    | some endpoint => { ex with endpoint := endpoint }
    | none => ex
  match b.sample_rate with
  | some rate => { ex with sample_rate := rate }
  | none => ex

/-- The exporter error taxonomy (`Error` enum, lib.rs lines 522-550). -/
inductive Error where
  | uploadSerializeRequest : String → Error
  | uploadDeserializeResponse : String → Error
  | uploadConnection : String → Error
  | upload : String → Error
deriving DecidableEq, Repr

/-- Modelled from the spec: `uploader.rs` is not under the sources at hand.
Whether the caller's retry layer may resend after the given error: a
connection fault is retryable; a serialization fault and an item-rejection
fault are not (spec §4.5, §7). -/
def Error.retryable : Error → Bool
  | .uploadConnection _ => true
  | _ => false

/-- One per-item error descriptor of the ingestion response (spec §6). -/
structure TransmissionItem where
  index : Nat
  status_code : Nat
  message : String
deriving DecidableEq, Repr

/-- The parsed ingestion response (spec §6): items received/accepted and the
per-item error descriptors. -/
structure Transmission where
  items_received : Nat
  items_accepted : Nat
  errors : List TransmissionItem
deriving DecidableEq, Repr

/-- Modelled from the spec: `uploader.rs` is not under the sources at hand.
The human-readable summary carried by the aggregate `Upload` error (spec
§4.5: count and sample messages, enough for diagnostics). -/
def upload_summary (t : Transmission) : String :=
  toString t.errors.length ++ " items rejected: " ++
    String.intercalate "; " (t.errors.map (fun e => e.message))

/-- Modelled from the spec: `uploader.rs` is not under the sources at hand.
`send` serializes the batch (failing fast with a non-retryable error),
invokes the transport (a transport fault is a retryable connection error),
parses the response (a parse fault is the distinct unknown-outcome error),
and classifies the per-item outcome: zero reported failures is unconditional
success, any reported item failure is an aggregate `Upload` failure carrying
a human-readable summary (spec §4.5).  The serializer, transport and parser
are passed as capabilities, failures carrying their message. -/
def send (serialize : List Envelope → Except String String)
    (transport : String → Except String String)
    (parse : String → Except String Transmission)
    (envelopes : List Envelope) : Except Error Unit :=
  match serialize envelopes with
  | .error e => .error (.uploadSerializeRequest e)
  | .ok payload =>
    match transport payload with
    | .error e => .error (.uploadConnection e)
    | .ok body =>
      match parse body with
      | .error e => .error (.uploadDeserializeResponse e)
      | .ok t =>
        if t.errors.isEmpty then .ok ()
        else .error (.upload (upload_summary t))

/-! Spec-side definitions: restatements of individual spec sentences, to be
compared with the embedded source functions above. -/

/-- Spec restatement: spans of kind Server or Consumer route to a Request
record, all other kinds to a RemoteDependency record. -/
def routes_to_request (k : SpanKind) : Bool :=
  match k with
  | .server | .consumer => true
  | .client | .producer | .internal => false

/-- Whether a `Data` payload is a Request record. -/
def Data.isRequest : Data → Bool
  | .request _ => true
  | _ => false

/-- Whether a `Data` payload is a RemoteDependency record. -/
def Data.isRemoteDependency : Data → Bool
  | .remoteDependency _ => true
  | _ => false

/-- Whether a `Data` payload is an Exception record. -/
def Data.isException : Data → Bool
  | .exception _ => true
  | _ => false

/-- Whether a `Data` payload is a Message record. -/
def Data.isMessage : Data → Bool
  | .message _ => true
  | _ => false

/-- Spec restatement: the envelope's telemetry-kind name matches the record
variant it wraps (a Request envelope never wraps a RemoteDependency record,
and so on). -/
def envelope_consistent (env : Envelope) : Bool :=
  match env.data with
  | some (Data.request _) => env.name = "Microsoft.ApplicationInsights.Request"
  | some (Data.remoteDependency _) => env.name = "Microsoft.ApplicationInsights.RemoteDependency"
  | some (Data.exception _) => env.name = "Microsoft.ApplicationInsights.Exception"
  | some (Data.message _) => env.name = "Microsoft.ApplicationInsights.Message"
  | none => true

/-- Spec restatement: Request success is false exactly when the span status
is Error, true otherwise (including Unset). -/
def request_success_spec (s : StatusCode) : Bool :=
  s ≠ StatusCode.error

/-- Spec restatement: RemoteDependency success is absent for Unset, true for
Ok, false for Error. -/
def dependency_success_spec : StatusCode → Option Bool
  | .unset => none
  | .ok => some true
  | .error => some false

/-- Spec restatement of the RemoteDependency `type` precedence: Internal span
kind forces the literal "InProc" regardless of attributes; else the DB-system
attribute; else the messaging-system attribute; else the RPC-system
attribute; else, when the record's properties bag has any key starting with
"http." the literal "HTTP", else when any key starts with "db." the literal
"DB"; else absent.  (String fields pass through the global 1024-character
truncation.) -/
def dependency_type_spec (span : SpanData) : Option String :=
  if span.spanKind = SpanKind.internal then some (lim "InProc")
  else match get_kv span.attributes DB_SYSTEM with
  | some v => some (lim v)
  | none =>
    match get_kv span.attributes MESSAGING_SYSTEM with
    | some v => some (lim v)
    | none =>
      match get_kv span.attributes RPC_SYSTEM with
      | some v => some (lim v)
      | none =>
        match attrs_to_properties span.attributes span.resource with
        | some props =>
          if props.any (fun p => p.1.startsWith "http.") then some (lim "HTTP")
          else if props.any (fun p => p.1.startsWith "db.") then some (lim "DB")
          else none
        | none => none

/-- Spec restatement of the RemoteDependency `target` precedence: the HTTP
host attribute; else the peer name, suffixed with ":" and the peer port when
the port attribute is present; else the peer IP, suffixed likewise; else the
DB name attribute; else absent. -/
def dependency_target_spec (span : SpanData) : Option String :=
  match get_kv span.attributes HTTP_HOST with
  | some host => some (lim host)
  | none =>
    match get_kv span.attributes NET_PEER_NAME, get_kv span.attributes NET_PEER_PORT with
    | some peerName, some peerPort => some (lim (peerName ++ ":" ++ peerPort))
    | some peerName, none => some (lim peerName)
    | none, _ =>
      match get_kv span.attributes NET_PEER_IP, get_kv span.attributes NET_PEER_PORT with
      | some peerIp, some peerPort => some (lim (peerIp ++ ":" ++ peerPort))
      | some peerIp, none => some (lim peerIp)
      | none, _ =>
        match get_kv span.attributes DB_NAME with
        | some dbName => some (lim dbName)
        | none => none

/-- A target path normalized to start with "/". -/
def normalize_target (t : String) : String :=
  if t.startsWith "/" then t else "/" ++ t

/-- Spec restatement of the Request `url` rule: prefer the explicit HTTP URL
attribute; else synthesize "scheme://host" followed by the normalized target
from the scheme, host and target attributes; else the normalized target alone
when scheme or host is missing; else absent. -/
def request_url_spec (span : SpanData) : Option String :=
  match get_kv span.attributes HTTP_URL with
  | some url => some (lim url)
  | none =>
    match get_kv span.attributes HTTP_TARGET with
    | some target =>
      match get_kv span.attributes HTTP_SCHEME, get_kv span.attributes HTTP_HOST with
      | some scheme, some host =>
        some (lim (scheme ++ "://" ++ host ++ normalize_target target))
      | _, _ => some (lim (normalize_target target))
    | none => none

/-- Spec restatement of the Exception mapping: the exception type, message
and stack-trace keys are extracted (removed) from the event's attribute map
into the dedicated fields, type and message defaulting to the placeholder
sentinels when absent; the remaining attributes become the properties bag,
absent (not empty) when it has zero entries. -/
def exception_data_spec (event : Event) : ExceptionData :=
  let attrs := dedup_keys event.attributes
  let remaining := attrs.filter (fun p =>
    p.1 ≠ EXCEPTION_TYPE ∧ p.1 ≠ EXCEPTION_MESSAGE ∧ p.1 ≠ EXCEPTION_STACKTRACE)
  { ver := 2
    exceptions :=
      [{ type_name := ((get_kv attrs EXCEPTION_TYPE).map lim).getD "<no type>"
         message := ((get_kv attrs EXCEPTION_MESSAGE).map lim).getD "<no message>"
         stack := (get_kv attrs EXCEPTION_STACKTRACE).map lim }]
    properties :=
      if remaining.isEmpty then none
      else some (remaining.map (fun p => (lim p.1, lim p.2))) }

/-! Helper lemmas. -/

/-- Truncation to 1024 characters cannot produce a string strictly shorter
than 1024 characters unless it is the untouched input. -/
theorem lim_eq_of_short {k s : String} (hs : s.data.length < 1024) (h : lim k = s) :
    k = s := by
  have hdata : k.data.take 1024 = s.data := congrArg String.data h
  have hlen : (k.data.take 1024).length = s.data.length := by rw [hdata]
  rw [List.length_take] at hlen
  have hk : k.data.length ≤ 1024 := by omega
  have hkk : k.data.take 1024 = k.data := List.take_of_length_le hk
  exact String.ext (hkk ▸ hdata)

/-- `get_kv` returns `none` exactly when no entry has the key. -/
theorem get_kv_eq_none {attrs : Attrs} {k : String} (h : get_kv attrs k = none) :
    ∀ p ∈ attrs, ¬(p.1 = k) := by
  unfold get_kv at h
  rw [Option.map_eq_none'] at h
  intro p hp
  have := List.find?_eq_none.1 h p hp
  simpa using this

/-- `mk_properties` unfolded to the empty-check on the raw entry list. -/
theorem mk_properties_eq (l : Attrs) :
    mk_properties l =
      if l.isEmpty then none else some (l.map (fun p => (lim p.1, lim p.2))) := by
  unfold mk_properties
  cases l <;> simp

/-- Every entry of a `mk_properties` bag satisfies any predicate that holds
of the truncated image of every raw entry. -/
theorem mk_properties_getD_all {P : String × String → Bool} {l : Attrs}
    (h : ∀ p ∈ l, P (lim p.1, lim p.2) = true) :
    ((mk_properties l).getD []).all P = true := by
  rw [mk_properties_eq]
  by_cases h0 : l.isEmpty
  · simp [h0]
  · rw [if_neg h0]
    simp only [Option.getD_some]
    rw [List.all_eq_true]
    intro q hq
    obtain ⟨p, hp, rfl⟩ := List.mem_map.1 hq
    exact h p hp

/-- A `mk_properties` bag is never the empty mapping: it is either absent or
non-empty. -/
theorem mk_properties_not_empty (l : Attrs) :
    ((mk_properties l).map (fun m => m.isEmpty)).getD false = false := by
  rw [mk_properties_eq]
  by_cases h0 : l.isEmpty
  · simp [h0]
  · rw [if_neg h0]
    simp only [Option.map_some', Option.getD_some]
    cases l
    · simp at h0
    · simp

/-- statement in natural language: `C4` — For every span, the success field is
determined solely by the span status: in a Request record success is false
exactly when the status is Error and true otherwise (including Unset); in a
RemoteDependency record success is absent when the status is Unset, true when
Ok, and false when Error. -/
theorem claim_c4 (span : SpanData) :
    (request_data_from_span span).success = request_success_spec span.statusCode ∧
    (remote_dependency_data_from_span span).success = dependency_success_spec span.statusCode := by
  refine ⟨rfl, ?_⟩
  cases h : span.statusCode <;>
    simp [remote_dependency_data_from_span, dependency_success_spec, h]

/-- statement in natural language: `C5` — For every span mapped to a
RemoteDependency record, the target field follows this exact precedence: the
http.host attribute if present; otherwise net.peer.name, suffixed with ":"
and net.peer.port when the port attribute is present; otherwise net.peer.ip,
suffixed with ":" and net.peer.port when present; otherwise the db.name
attribute; otherwise absent. -/
theorem claim_c5 (span : SpanData) :
    (remote_dependency_data_from_span span).target = dependency_target_spec span := by
  unfold remote_dependency_data_from_span dependency_target_spec
  cases h1 : get_kv span.attributes HTTP_HOST <;>
    cases h2 : get_kv span.attributes NET_PEER_NAME <;>
      cases h3 : get_kv span.attributes NET_PEER_PORT <;>
        cases h4 : get_kv span.attributes NET_PEER_IP <;>
          cases h5 : get_kv span.attributes DB_NAME <;>
            simp [h1, h2, h3, h4, h5]

/-- statement in natural language: `C6` — For every span mapped to a Request
record, the url field prefers an explicit http.url attribute; otherwise it is
synthesized as "scheme://host" plus target from the http.scheme, http.host
and http.target attributes, with the target normalized to start with "/";
otherwise it is the normalized target alone when scheme or host is missing;
otherwise the url is absent. -/
theorem claim_c6 (span : SpanData) :
    (request_data_from_span span).url = request_url_spec span := by
  unfold request_data_from_span request_url_spec normalize_target
  cases h1 : get_kv span.attributes HTTP_URL <;>
    cases h2 : get_kv span.attributes HTTP_TARGET <;>
      cases h3 : get_kv span.attributes HTTP_SCHEME <;>
        cases h4 : get_kv span.attributes HTTP_HOST <;>
          simp [h1, h2, h3, h4]

/-- statement in natural language: `C2` — For every span mapped to a
RemoteDependency record, the type field follows this exact precedence: if the
span kind is Internal, type is the literal "InProc" regardless of any
attributes; otherwise the db.system attribute value if present; otherwise
messaging.system; otherwise rpc.system; otherwise, if the record's
properties bag has any key starting with "http.", type is "HTTP"; otherwise
if any key starts with "db.", type is "DB"; otherwise type is absent. -/
theorem claim_c2 (span : SpanData) :
    (remote_dependency_data_from_span span).type_ = dependency_type_spec span := by
  unfold remote_dependency_data_from_span dependency_type_spec
  by_cases hk : span.spanKind = SpanKind.internal
  · simp [hk]
  · cases h1 : get_kv span.attributes DB_SYSTEM <;>
      cases h2 : get_kv span.attributes MESSAGING_SYSTEM <;>
        cases h3 : get_kv span.attributes RPC_SYSTEM <;>
          cases h4 : attrs_to_properties span.attributes span.resource <;>
            simp [hk, h1, h2, h3, h4]

/-- statement in natural language: `C1` — For every completed span, map_span
routes by span kind: a span whose kind is Server or Consumer always yields a
Request record wrapped in a Request envelope, and a span whose kind is
Client, Producer, or Internal always yields a RemoteDependency record wrapped
in a RemoteDependency envelope; the envelope's telemetry-kind name always
matches the record variant it wraps, on every envelope the exporter
assembles. -/
theorem claim_c1 (ex : Exporter) (span : SpanData) :
    (map_span span).1.isRequest = routes_to_request span.spanKind ∧
    (map_span span).1.isRemoteDependency = !routes_to_request span.spanKind ∧
    (create_envelopes ex span).head?.map Envelope.data = some (some (map_span span).1) ∧
    (create_envelopes ex span).all envelope_consistent = true := by
  obtain ⟨sid, kind, nm, st, et, sc, attrs, res, events⟩ := span
  refine ⟨?_, ?_, ?_, ?_⟩
  · cases kind <;> rfl
  · cases kind <;> rfl
  · cases kind <;> rfl
  · show (_ :: _).all _ = true
    simp only [List.all_cons, Bool.and_eq_true]
    refine ⟨?_, ?_⟩
    · cases kind <;> rfl
    · rw [List.all_eq_true]
      intro env henv
      obtain ⟨event, _, rfl⟩ := List.mem_map.1 henv
      show envelope_consistent _ = true
      unfold map_event
      by_cases he : event.name = "exception" <;> simp [envelope_consistent, he]

/-- statement in natural language: `C7` — For every event, an event named
exactly "exception" maps to an Exception record in which the exception.type,
exception.message, and exception.stacktrace attributes are removed from the
attribute set into the dedicated type, message, and stack fields, type and
message defaulting to "&lt;no type&gt;" and "&lt;no message&gt;" when absent,
and the remaining attributes become the properties bag, which is absent (not
an empty mapping) when it has zero entries; every event with any other name
maps to a Message record. -/
theorem claim_c7 (event : Event) :
    (map_event event).1.isException = (event.name = "exception") ∧
    (map_event event).1.isMessage = (event.name ≠ "exception") ∧
    exception_data_from_event event = exception_data_spec event ∧
    ((exception_data_from_event event).properties.getD []).all
      (fun p => p.1 ≠ EXCEPTION_TYPE ∧ p.1 ≠ EXCEPTION_MESSAGE ∧ p.1 ≠ EXCEPTION_STACKTRACE)
      = true ∧
    ((exception_data_from_event event).properties.map (fun l => l.isEmpty)).getD false
      = false := by
  refine ⟨?_, ?_, ?_, ?_, ?_⟩
  · unfold map_event
    by_cases he : event.name = "exception" <;> simp [he, Data.isException, Data.isMessage]
  · unfold map_event
    by_cases he : event.name = "exception" <;> simp [he, Data.isException, Data.isMessage]
  · simp only [exception_data_from_event, exception_data_spec, mk_properties_eq]
    cases h1 : get_kv (dedup_keys event.attributes) EXCEPTION_TYPE <;>
      cases h2 : get_kv (dedup_keys event.attributes) EXCEPTION_MESSAGE <;>
        simp [h1, h2]
  · show ((mk_properties _).getD []).all _ = true
    refine mk_properties_getD_all ?_
    intro p hpmem
    obtain ⟨-, hpred⟩ := List.mem_filter.1 hpmem
    have hp : p.1 ≠ EXCEPTION_TYPE ∧ p.1 ≠ EXCEPTION_MESSAGE ∧ p.1 ≠ EXCEPTION_STACKTRACE := by
      simpa using hpred
    refine decide_eq_true ⟨?_, ?_, ?_⟩
    · intro h
      exact hp.1 (lim_eq_of_short (by decide) h)
    · intro h
      exact hp.2.1 (lim_eq_of_short (by decide) h)
    · intro h
      exact hp.2.2 (lim_eq_of_short (by decide) h)
  · exact mk_properties_not_empty _

/-- statement in natural language: `C8` — For every span, envelope assembly
produces a sequence of exactly 1 + len(span.events) envelopes: one primary
envelope whose timestamp is the span's start time, and one secondary envelope
per event whose timestamp is that event's own timestamp; the configured
sampling rate and instrumentation key are copied verbatim onto every envelope
in the sequence. -/
theorem claim_c8 (ex : Exporter) (span : SpanData) :
    (create_envelopes ex span).length = 1 + span.events.length ∧
    (create_envelopes ex span).map Envelope.time =
      time_to_string span.startTime :: span.events.map (fun e => time_to_string e.timestamp) ∧
    (create_envelopes ex span).map Envelope.sample_rate =
      List.replicate (1 + span.events.length) (some ex.sample_rate) ∧
    (create_envelopes ex span).map Envelope.i_key =
      List.replicate (1 + span.events.length) (some ex.instrumentation_key) := by
  refine ⟨?_, ?_, ?_, ?_⟩
  · simp [create_envelopes, Nat.add_comm]
  · simp [create_envelopes, List.map_map]
  · rw [Nat.add_comm, List.replicate_succ]
    simp [create_envelopes, List.map_map]
    rw [show (Envelope.sample_rate ∘ fun event =>
          ({ name := (map_event event).2, time := time_to_string event.timestamp,
             sample_rate := some ex.sample_rate, i_key := some ex.instrumentation_key,
             tags := some (get_tags_for_event span),
             data := some (map_event event).1 } : Envelope)) =
        fun _ => some ex.sample_rate from rfl]
    exact List.map_const' _ _
  · rw [Nat.add_comm, List.replicate_succ]
    simp [create_envelopes, List.map_map]
    rw [show (Envelope.i_key ∘ fun event =>
          ({ name := (map_event event).2, time := time_to_string event.timestamp,
             sample_rate := some ex.sample_rate, i_key := some ex.instrumentation_key,
             tags := some (get_tags_for_event span),
             data := some (map_event event).1 } : Envelope)) =
        fun _ => some ex.instrumentation_key from rfl]
    exact List.map_const' _ _

/-- statement in natural language: `C9` — For every event, the properties bag
of the resulting Exception or Message record is built from the event's own
attributes only: the parent span's resource attributes are never merged into
event-record properties (the secondary envelopes' record payloads are
unchanged under any replacement of the span's resource), unlike Request and
RemoteDependency records, whose properties merge span attributes with
resource attributes (any resource entry whose key is not shadowed by a span
attribute appears in the span-record properties). -/
theorem claim_c9 (ex : Exporter) (span : SpanData) (res : Attrs) :
    ((create_envelopes ex { span with resource := res }).tail).map Envelope.data =
      ((create_envelopes ex span).tail).map Envelope.data ∧
    (∀ k v, (k, v) ∈ span.resource → get_kv span.attributes k = none →
      ∃ props, (request_data_from_span span).properties = some props ∧
        (remote_dependency_data_from_span span).properties = some props ∧
        (lim k, lim v) ∈ props) := by
  constructor
  · obtain ⟨sid, kind, nm, st, et, sc, attrs, oldres, events⟩ := span
    simp [create_envelopes, List.map_map]
  · intro k v hkv hnone
    have hmem : (k, v) ∈ merge_attrs span.attributes span.resource := by
      unfold merge_attrs
      refine List.mem_append_left _ (List.mem_filter.2 ⟨hkv, ?_⟩)
      simp only [Bool.not_eq_true']
      rw [List.any_eq_false]
      intro p hp
      simpa using get_kv_eq_none hnone p hp
    have hmem2 : (lim k, lim v) ∈
        (merge_attrs span.attributes span.resource).map (fun p => (lim p.1, lim p.2)) :=
      List.mem_map.2 ⟨(k, v), hmem, rfl⟩
    have hne : ((merge_attrs span.attributes span.resource).map
        (fun p => (lim p.1, lim p.2))).isEmpty = false := by
      rw [List.isEmpty_eq_false]
      intro hnil
      rw [hnil] at hmem2
      exact (List.not_mem_nil _) hmem2
    refine ⟨(merge_attrs span.attributes span.resource).map (fun p => (lim p.1, lim p.2)),
      ?_, ?_, hmem2⟩
    · show attrs_to_properties span.attributes span.resource = _
      unfold attrs_to_properties
      simp [hne]
    · show attrs_to_properties span.attributes span.resource = _
      unfold attrs_to_properties
      simp [hne]

/-- Closed witness for `claim_c9`: a concrete span whose resource carries a
key absent from the span attributes, which then shows up in the span-record
properties. -/
theorem claim_c9_witness :
    ∃ props,
      (request_data_from_span
        { spanId := 7, spanKind := SpanKind.client, name := "call", startTime := 1,
          endTime := 2, statusCode := StatusCode.unset,
          attributes := [("db.system", "postgresql")],
          resource := [("service.name", "svc")], events := [] }).properties = some props ∧
      (remote_dependency_data_from_span
        { spanId := 7, spanKind := SpanKind.client, name := "call", startTime := 1,
          endTime := 2, statusCode := StatusCode.unset,
          attributes := [("db.system", "postgresql")],
          resource := [("service.name", "svc")], events := [] }).properties = some props ∧
      (lim "service.name", lim "svc") ∈ props :=
  (claim_c9 (Exporter.new "k")
    { spanId := 7, spanKind := SpanKind.client, name := "call", startTime := 1,
      endTime := 2, statusCode := StatusCode.unset,
      attributes := [("db.system", "postgresql")],
      resource := [("service.name", "svc")], events := [] } []).2
    "service.name" "svc" (by decide) (by decide)

/-- statement in natural language: `C10` — For every input value r,
with_sample_rate(r) stores exactly r multiplied by 100 as the exporter's
sampling rate with no validation or clamping, so an r outside [0, 1] produces
a stored percentage outside [0, 100] that is copied onto every envelope; an
exporter built without calling with_sample_rate has sampling rate exactly
100. -/
theorem claim_c10 (ik : String) (rate : ℚ) (ex cfg : Exporter) (span : SpanData) :
    (Exporter.new ik).sample_rate = 100 ∧
    (init_exporter (new_pipeline ik)).sample_rate = 100 ∧
    (Exporter.with_sample_rate ex rate).sample_rate = rate * 100 ∧
    (init_exporter ((new_pipeline ik).with_sample_rate rate)).sample_rate = rate * 100 ∧
    (rate < 0 → (Exporter.with_sample_rate ex rate).sample_rate < 0) ∧
    (1 < rate → 100 < (Exporter.with_sample_rate ex rate).sample_rate) ∧
    (create_envelopes cfg span).map Envelope.sample_rate =
      List.replicate (1 + span.events.length) (some cfg.sample_rate) := by
  refine ⟨rfl, rfl, rfl, rfl, ?_, ?_, ?_⟩
  · intro h
    show rate * 100 < 0
    nlinarith
  · intro h
    show (100 : ℚ) < rate * 100
    nlinarith
  · rw [Nat.add_comm, List.replicate_succ]
    simp [create_envelopes, List.map_map]
    rw [show (Envelope.sample_rate ∘ fun event =>
          ({ name := (map_event event).2, time := time_to_string event.timestamp,
             sample_rate := some cfg.sample_rate, i_key := some cfg.instrumentation_key,
             tags := some (get_tags_for_event span),
             data := some (map_event event).1 } : Envelope)) =
        fun _ => some cfg.sample_rate from rfl]
    exact List.map_const' _ _

/-- Closed witness for `claim_c10`: rates outside [0, 1] are stored, scaled
by 100, without clamping. -/
theorem claim_c10_witness :
    (Exporter.with_sample_rate (Exporter.new "k") 2).sample_rate = 200 ∧
    100 < (Exporter.with_sample_rate (Exporter.new "k") 2).sample_rate ∧
    (Exporter.with_sample_rate (Exporter.new "k") (-1)).sample_rate < 0 := by
  have h2 := claim_c10 "k" 2 (Exporter.new "k") (Exporter.new "k")
    { spanId := 0, spanKind := SpanKind.internal, name := "", startTime := 0, endTime := 0,
      statusCode := StatusCode.unset, attributes := [], resource := [], events := [] }
  have hneg := claim_c10 "k" (-1) (Exporter.new "k") (Exporter.new "k")
    { spanId := 0, spanKind := SpanKind.internal, name := "", startTime := 0, endTime := 0,
      statusCode := StatusCode.unset, attributes := [], resource := [], events := [] }
  refine ⟨?_, ?_, ?_⟩
  · rw [h2.2.2.1]
    norm_num
  · exact h2.2.2.2.2.2.1 (by norm_num)
  · exact hneg.2.2.2.2.1 (by norm_num)

/-- statement in natural language: `C3` — The delivery operation's result is
classified into exactly one of: unconditional success when the parsed
ingestion response reports zero item failures; a non-retryable aggregate
Upload failure carrying a human-readable summary whenever the response
reports at least one item failure (even if other items succeeded); a
retryable UploadConnection failure carrying the underlying cause when the
transport call fails; an UploadDeserializeResponse outcome, distinct from
both success and definite failure, when the response cannot be parsed; and a
non-retryable UploadSerializeRequest failure when the outgoing batch cannot
be serialized. -/
theorem claim_c3 (serialize : List Envelope → Except String String)
    (transport : String → Except String String)
    (parse : String → Except String Transmission)
    (envelopes : List Envelope) :
    (∀ e, serialize envelopes = Except.error e →
      send serialize transport parse envelopes =
        Except.error (Error.uploadSerializeRequest e) ∧
      (Error.uploadSerializeRequest e).retryable = false) ∧
    (∀ payload e, serialize envelopes = Except.ok payload →
      transport payload = Except.error e →
      send serialize transport parse envelopes = Except.error (Error.uploadConnection e) ∧
      (Error.uploadConnection e).retryable = true) ∧
    (∀ payload body e, serialize envelopes = Except.ok payload →
      transport payload = Except.ok body → parse body = Except.error e →
      send serialize transport parse envelopes =
        Except.error (Error.uploadDeserializeResponse e) ∧
      (Except.error (Error.uploadDeserializeResponse e) : Except Error Unit) ≠
        Except.ok () ∧
      (∀ m, Error.uploadDeserializeResponse e ≠ Error.upload m) ∧
      (∀ m, Error.uploadDeserializeResponse e ≠ Error.uploadSerializeRequest m)) ∧
    (∀ payload body t, serialize envelopes = Except.ok payload →
      transport payload = Except.ok body → parse body = Except.ok t →
      t.errors = [] →
      send serialize transport parse envelopes = Except.ok ()) ∧
    (∀ payload body t, serialize envelopes = Except.ok payload →
      transport payload = Except.ok body → parse body = Except.ok t →
      t.errors ≠ [] →
      send serialize transport parse envelopes =
        Except.error (Error.upload (upload_summary t)) ∧
      (Error.upload (upload_summary t)).retryable = false) := by
  refine ⟨?_, ?_, ?_, ?_, ?_⟩
  · intro e hs
    exact ⟨by simp only [send, hs], rfl⟩
  · intro payload e hs ht
    exact ⟨by simp only [send, hs, ht], rfl⟩
  · intro payload body e hs ht hp
    refine ⟨?_, ?_, ?_, ?_⟩
    · simp only [send, hs, ht, hp]
    · intro h
      cases h
    · intro m h
      cases h
    · intro m h
      cases h
  · intro payload body t hs ht hp herr
    simp [send, hs, ht, hp, herr]
  · intro payload body t hs ht hp herr
    refine ⟨?_, rfl⟩
    simp [send, hs, ht, hp, List.isEmpty_eq_false.2 herr]

/-- A serializer stub that always succeeds, for the delivery witness. -/
def serialize_ok : List Envelope → Except String String :=
  fun _ => Except.ok "[]"

/-- A transport stub that always succeeds, for the delivery witness. -/
def transport_ok : String → Except String String :=
  fun _ => Except.ok "{}"

/-- A response parser stub reporting three received, three accepted, zero
item failures, for the delivery witness. -/
def parse_ok : String → Except String Transmission :=
  fun _ => Except.ok { items_received := 3, items_accepted := 3, errors := [] }

/-- Closed witness for `claim_c3`: zero reported item failures is
unconditional success. -/
theorem claim_c3_witness : send serialize_ok transport_ok parse_ok [] = Except.ok () :=
  (claim_c3 serialize_ok transport_ok parse_ok []).2.2.2.1 "[]" "{}"
    { items_received := 3, items_accepted := 3, errors := [] } rfl rfl rfl rfl

end AppInsights
